import Mathlib

/-
Verification of the Church-encoding core of lambda.py, a lambda-calculus
embedding in Python.  Every value of the Python program is a closure; we
shallowly embed each combinator as a polymorphic Lean function whose body
mirrors the corresponding Python lambda.  The untyped self-application in
the Y combinator cannot be typed in the simply-typed shallow embedding, so
Y is modelled by its fuel-indexed unfolding (the number of times the
eta-delayed self-application h(h) is forced); partiality (possible
divergence of the Python program) is modelled with Option.
-/

namespace LambdaPy

/-- Identity function, line 20: `ID = lambda z: z`. -/
def ID {α : Type u} (z : α) : α := z

/-- Void value as a function, line 24: `VOID = ID`.  Note the source binds
VOID to the identity, not to the raising placeholder below. -/
def VOID {α : Type u} : α → α := ID

/-- Logical TRUE, line 31: `TRUE = lambda true_value: lambda false_val:
true_value()`.  Thunks are zero-argument producers, embedded as
functions from Unit. -/
def TRUE {ρ : Type u} (true_value : Unit → ρ) (false_val : Unit → ρ) : ρ :=
  true_value ()

/-- Logical FALSE, line 32: `FALSE = lambda true_value: lambda false_value:
false_value()`. -/
def FALSE {ρ : Type u} (true_value : Unit → ρ) (false_value : Unit → ρ) : ρ :=
  false_value ()

/-- Conditional, line 35: `IF = lambda cond: lambda true_value: lambda
false_value: cond(true_value)(false_value)`. -/
def IF {ρ : Type u} (cond : (Unit → ρ) → (Unit → ρ) → ρ)
    (true_value : Unit → ρ) (false_value : Unit → ρ) : ρ :=
  cond true_value false_value

/-- Function composition, line 39: `compose = lambda f,g: lambda x: f(g(x))`. -/
def compose {α β γ : Type u} (f : β → γ) (g : α → β) : α → γ :=
  fun x => f (g x)

/-- Church numeral one, line 43: `ONE = lambda f: f`. -/
def ONE {α : Type u} (f : α → α) : α → α := f

/-- Church numeral two, line 44: `TWO = lambda f: compose(f, f)`. -/
def TWO {α : Type u} (f : α → α) : α → α := compose f f

/-- Church numeral three, line 45: `THREE = lambda f: compose(f, TWO(f))`. -/
def THREE {α : Type u} (f : α → α) : α → α := compose f (TWO f)

/-- Numeral constructor, lines 50-51: `numeral(n)` returns `lambda f:
lambda z: z if n == 0 else f(numeral(n-1)(f)(z))`.  Embedded over Nat,
matching the Python recursion on the non-negative integers it is
specified for (the unguarded recursion on negative host integers is
modelled separately by `numeralForce` below). -/
def numeral {α : Type u} (n : Nat) (f : α → α) (z : α) : α :=
  if n = 0 then z else f (numeral (n - 1) f z)
decreasing_by omega

/-- Church numeral four, line 54: `FOUR = numeral(4)`. -/
def FOUR {α : Type u} : (α → α) → α → α := numeral 4

/-- Church numeral eight, line 55: `EIGHT = numeral(8)`. -/
def EIGHT {α : Type u} : (α → α) → α → α := numeral 8

/-- Increment function, line 58: `INC = lambda x: x+1`.  Host integers are
embedded as Int. -/
def INC : Int → Int := fun x => x + 1

/-- Decoder, line 61: `natify = lambda f: f(INC)(0)`. -/
def natify (f : (Int → Int) → Int → Int) : Int := f INC 0

/-- Successor, line 67: `SUCC = lambda n: lambda f: lambda z: f(n(f)(z))`. -/
def SUCC {α : Type u} (n : (α → α) → α → α) (f : α → α) (z : α) : α :=
  f (n f z)

/-- Addition, line 72: `SUM = lambda n: lambda m: lambda f:
compose(n(f), m(f))`. -/
def SUM {α : Type u} (n m : (α → α) → α → α) (f : α → α) : α → α :=
  compose (n f) (m f)

/-- Multiplication, line 79: `MULT = lambda n: lambda m: compose(n,m)`. -/
def MULT {α : Type u} (n m : (α → α) → α → α) : (α → α) → α → α :=
  compose n m

/-- Pair constructor, line 83: `PAIR = lambda a: lambda b: lambda f:
f(a)(b)`. -/
def PAIR {α β γ : Type u} (a : α) (b : β) (f : α → β → γ) : γ := f a b

/-- Left projection, line 84: `LEFT = lambda pair: pair(lambda a:
lambda b: a)`. -/
def LEFT {α β : Type u} (pair : (α → β → α) → α) : α :=
  pair (fun a _b => a)

/-- Right projection, line 85: `RIGHT = lambda pair: pair(lambda a:
lambda b: b)`. -/
def RIGHT {α β : Type u} (pair : (α → β → β) → β) : β :=
  pair (fun _a b => b)

/-- Empty list, line 89: `NIL = lambda onnil: lambda onlist: onnil()`.
The onnil handler is a zero-argument thunk. -/
def NIL {α β : Type u} (onnil : Unit → α) (_onlist : β) : α := onnil ()

/-- List node, line 90: `CONS = lambda hd: lambda tl: lambda onnil:
lambda onlist: onlist(hd)(tl)`.  The stored components and the ignored
onnil handler are fully polymorphic, as the Python code never inspects
them. -/
def CONS {α β γ δ : Type u} (hd : α) (tl : β) (_onnil : γ)
    (onlist : α → β → δ) : δ :=
  onlist hd tl

/-- Emptiness test, line 91: `NILP = lambda lst: lst (lambda: TRUE)
(lambda hd: lambda tl: FALSE)`.  The result is a Church boolean at an
arbitrary answer type ρ. -/
def NILP {ρ α β : Type u}
    (lst : (Unit → (Unit → ρ) → (Unit → ρ) → ρ) →
           (α → β → (Unit → ρ) → (Unit → ρ) → ρ) →
           (Unit → ρ) → (Unit → ρ) → ρ) :
    (Unit → ρ) → (Unit → ρ) → ρ :=
  lst (fun _ => TRUE) (fun _hd _tl => FALSE)

/-- Head observer, line 92: `HEAD = lambda lst: lst (VOID) (lambda hd:
lambda tl: hd)`. -/
def HEAD {α β γ : Type u} (lst : (γ → γ) → (α → β → α) → α) : α :=
  lst VOID (fun hd _tl => hd)

/-- Tail observer, line 93: `TAIL = lambda lst: lst (VOID) (lambda hd:
lambda tl: tl)`. -/
def TAIL {α β γ : Type u} (lst : (γ → γ) → (α → β → β) → β) : β :=
  lst VOID (fun _hd tl => tl)

/- Helper lemmas about `numeral`. -/

theorem numeral_zero {α : Type u} (f : α → α) (z : α) : numeral 0 f z = z := by
  unfold numeral; simp

theorem numeral_succ {α : Type u} (n : Nat) (f : α → α) (z : α) :
    numeral (n + 1) f z = f (numeral n f z) := by
  rw [numeral]; simp

theorem numeral_eq_iterate {α : Type u} (n : Nat) (f : α → α) (z : α) :
    numeral n f z = f^[n] z := by
  induction n with
  | zero => exact numeral_zero f z
  | succ k ih =>
      rw [numeral_succ, ih, Function.iterate_succ_apply']

theorem numeral_shift (n : Nat) (g : Int → Int) (c : Int)
    (hg : ∀ z, g z = z + c) : ∀ z : Int, numeral n g z = z + n * c := by
  induction n with
  | zero => intro z; rw [numeral_zero]; simp
  | succ k ih =>
      intro z
      rw [numeral_succ, ih, hg]
      push_cast
      ring

theorem numeral_INC (n : Nat) (z : Int) : numeral n INC z = z + n :=
  numeral_shift n INC 1 (fun _ => rfl) z |>.trans (by ring)

/-
Model of the Y combinator, lines 159-160:
  Y = ((lambda h: lambda F: F(lambda x: h(h)(F)(x)))
       (lambda h: lambda F: F(lambda x: h(h)(F)(x))))
The self-application h(h) has no simple type, so the shallow embedding
uses the fuel-indexed unfolding of Y: each forcing of the eta-delayed
self-application `lambda x: h(h)(F)(x)` consumes one unit of fuel, and
`Yapprox F (k+1) = F (Yapprox F k)` holds by definition, mirroring the
defining unfolding Y(F) = F(eta(Y(F))).  A run of the Python program
Y(F)(x) terminates with value v exactly when some finite fuel suffices,
i.e. `∃ k, Yapprox F k x = some v`; `none` models a computation that
needs more unfoldings than the fuel allows.
-/

def Yapprox {α β : Type} (F : (α → Option β) → α → Option β) :
    Nat → α → Option β
  | 0 => fun _ => none
  | fuel + 1 => F (Yapprox F fuel)

/-- Monotonicity of a generator: a more-defined recursive self-argument
yields a more-defined result.  This is the semantic rendering of the
contract that the generator only invokes its self-argument on arguments
(never forcing it eagerly at top level before returning). -/
def Mono {α β : Type} (F : (α → Option β) → α → Option β) : Prop :=
  ∀ g g2 : α → Option β, (∀ x v, g x = some v → g2 x = some v) →
    ∀ x v, F g x = some v → F g2 x = some v

/-- Factorial generator, line 200: `lambda f: lambda n: 1 if n <= 0 else
n*f(n-1)`. -/
def factGen : (Int → Option Int) → Int → Option Int :=
  fun self n => if n ≤ 0 then some 1 else (self (n - 1)).map (fun r => n * r)

theorem factGen_mono : Mono factGen := by
  intro g g2 himp x v h
  unfold factGen at h ⊢
  by_cases hx : x ≤ 0
  · rwa [if_pos hx] at h ⊢
  · rw [if_neg hx] at h ⊢
    rcases Option.map_eq_some'.mp h with ⟨r, hr, hv⟩
    exact Option.map_eq_some'.mpr ⟨r, himp _ _ hr, hv⟩

theorem Yapprox_fuel_mono {α β : Type} {F : (α → Option β) → α → Option β}
    (hF : Mono F) :
    ∀ k k2 : Nat, k ≤ k2 → ∀ x v,
      Yapprox F k x = some v → Yapprox F k2 x = some v := by
  intro k
  induction k with
  | zero => intro k2 _ x v h; simp [Yapprox] at h
  | succ j ih =>
      intro k2 hk x v h
      obtain ⟨j2, rfl⟩ : ∃ j2, k2 = j2 + 1 := ⟨k2 - 1, by omega⟩
      exact hF (Yapprox F j) (Yapprox F j2) (fun y w => ih j2 (by omega) y w)
        x v h

/-- Claim C1: Y yields extensional fixed points.  For every monotone
generator F (one that uses its self-argument only by invoking it on
arguments, never eagerly before returning), the function computed by
Y(F) at x converges to v exactly when F applied to that same function
converges to v at x, and the computed value is unique; moreover for the
factorial generator, Y(F) applied to 5 returns 120 (with 6 unfoldings). -/
theorem Y_extensional_fixed_point :
    (∀ (α β : Type) (F : (α → Option β) → α → Option β), Mono F →
      (∀ x v, (∃ k, Yapprox F k x = some v) ↔
        (∃ k, F (Yapprox F k) x = some v)) ∧
      (∀ x v v2, (∃ k, Yapprox F k x = some v) →
        (∃ k2, Yapprox F k2 x = some v2) → v = v2)) ∧
    Yapprox factGen 6 5 = some 120 := by
  refine ⟨fun α β F hF => ⟨fun x v => ⟨?_, ?_⟩, fun x v v2 hv hv2 => ?_⟩, ?_⟩
  · rintro ⟨k, hk⟩
    match k, hk with
    | 0, hk => simp [Yapprox] at hk
    | j + 1, hk => exact ⟨j, hk⟩
  · rintro ⟨k, hk⟩
    exact ⟨k + 1, hk⟩
  · obtain ⟨k, hk⟩ := hv
    obtain ⟨k2, hk2⟩ := hv2
    have h1 := Yapprox_fuel_mono hF k (max k k2) (le_max_left k k2) x v hk
    have h2 := Yapprox_fuel_mono hF k2 (max k k2) (le_max_right k k2) x v2 hk2
    rw [h1] at h2
    exact Option.some.inj h2
  · decide

/-- Claim C1 witness: the fixed-point equivalence instantiated at the
factorial generator, input 5 and output 120. -/
theorem Y_fixed_point_witness :
    (∃ k, Yapprox factGen k 5 = some 120) ↔
      (∃ k, factGen (Yapprox factGen k) 5 = some 120) :=
  (Y_extensional_fixed_point.1 Int Int factGen factGen_mono).1 5 120

/-
Dynamic model for the misuse-fault behavior (claim C2).  Python checks
arity at call time: NIL (line 89) invokes its onnil handler with zero
arguments, while HEAD and TAIL (lines 92-93) pass VOID = ID, a
one-argument function, as that handler; CPython then raises a generic
TypeError (missing positional argument), not the Exception with message
Cannot invoke VOID! that the never-wired _VOID (lines 26-27) would raise
if it were both wired in and invoked with one argument.  The model
represents a callable by its arity together with a fallible body, and a
call with the wrong number of arguments by the arity fault.
-/

inductive Fault where
  | arity
  | voidMisuse
  deriving DecidableEq

inductive PyCallable (α : Type) where
  | zeroArg (body : Unit → Except Fault α)
  | oneArg (body : α → Except Fault α)

/-- Calling a callable with zero arguments: a one-argument callable
raises the arity fault (TypeError) before its body runs. -/
def callNoArgs {α : Type} : PyCallable α → Except Fault α
  | .zeroArg body => body ()
  | .oneArg _ => .error Fault.arity

/-- Calling a callable with one argument. -/
def callOneArg {α : Type} : PyCallable α → α → Except Fault α
  | .zeroArg _, _ => .error Fault.arity
  | .oneArg body, a => body a

/-- Dynamic VOID, line 24: the identity, a one-argument callable that
returns its argument. -/
def VOIDdyn {α : Type} : PyCallable α := .oneArg (fun z => .ok z)

/-- Dynamic _VOID, lines 26-27: a one-argument callable that raises the
designated misuse exception (message: Cannot invoke VOID!); defined in
the source for debugging purposes but never used by HEAD or TAIL. -/
def VOIDdebug {α : Type} : PyCallable α := .oneArg (fun _ => .error Fault.voidMisuse)

/-- Dynamic NIL, line 89: `lambda onnil: lambda onlist: onnil()` calls
its onnil handler with zero arguments. -/
def NILdyn {α : Type} (onnil : PyCallable α) (_onlist : α → α → α) :
    Except Fault α :=
  callNoArgs onnil

/-- Dynamic HEAD, line 92: `lambda lst: lst (VOID) (lambda hd: lambda tl:
hd)` routes the empty case to VOID, the identity. -/
def HEADdyn {α : Type} (lst : PyCallable α → (α → α → α) → Except Fault α) :
    Except Fault α :=
  lst VOIDdyn (fun hd _tl => hd)

/-- Dynamic TAIL, line 93. -/
def TAILdyn {α : Type} (lst : PyCallable α → (α → α → α) → Except Fault α) :
    Except Fault α :=
  lst VOIDdyn (fun _hd tl => tl)

/-- Claim C2 (documents the code bug): HEAD(NIL) and TAIL(NIL) do fail
rather than return a value, but with the generic arity fault (a TypeError
from calling the one-argument VOID = ID with zero arguments), not the
designated distinguishable misuse fault; the designated fault is what
_VOID raises when actually invoked with one argument, and VOID = ID
instead silently returns its argument when so invoked. -/
theorem head_nil_arity_fault :
    HEADdyn (NILdyn (α := Nat)) = Except.error Fault.arity ∧
    TAILdyn (NILdyn (α := Nat)) = Except.error Fault.arity ∧
    HEADdyn (NILdyn (α := Nat)) ≠ Except.error Fault.voidMisuse ∧
    callOneArg (VOIDdebug (α := Nat)) 0 = Except.error Fault.voidMisuse ∧
    callOneArg (VOIDdyn (α := Nat)) 0 = Except.ok 0 := by
  refine ⟨rfl, rfl, ?_, rfl, rfl⟩
  intro h
  rw [show HEADdyn (NILdyn (α := Nat)) = Except.error Fault.arity from rfl] at h
  exact Fault.noConfusion (Except.error.inj h)

/-
Staged model of numeral for claim C9.  In the source (lines 50-51) the
recursion sits under two lambdas: numeral(n) itself only builds and
returns a closure capturing n, numeral(n)(f) builds and returns a closure
capturing n and f, and only the final application to z evaluates
`z if n == 0 else f(numeral(n-1)(f)(z))`.  The two construction stages
are total structure builders (no recursion to model), and the forcing
stage is fuel-indexed over a host Int so that the unbounded recursion on
negative n appears as divergence: none for every fuel.
-/

structure NumeralClosure (α : Type) where
  n : Int

structure NumeralClosureF (α : Type) where
  n : Int
  f : α → α

/-- Stage 1: numeral(n) returns a closure capturing n, for any host
integer n, negative included, with no recursion performed. -/
def numeralMk (α : Type) (n : Int) : NumeralClosure α := ⟨n⟩

/-- Stage 2: applying the closure to f captures f, still with no
recursion performed. -/
def numeralApplyF {α : Type} (c : NumeralClosure α) (f : α → α) :
    NumeralClosureF α :=
  ⟨c.n, f⟩

/-- Stage 3: applying to the seed z forces the recursion
`z if n == 0 else f(numeral(n-1)(f)(z))`; fuel bounds the recursion
depth and none models running out of fuel. -/
def numeralForce {α : Type} (fuel : Nat) (c : NumeralClosureF α) (z : α) :
    Option α :=
  match fuel with
  | 0 => none
  | fuel + 1 =>
      if c.n = 0 then some z
      else (numeralForce fuel ⟨c.n - 1, c.f⟩ z).map c.f

theorem numeralForce_neg {α : Type} (f : α → α) (z : α) :
    ∀ (fuel : Nat) (m : Int), m < 0 → numeralForce fuel ⟨m, f⟩ z = none := by
  intro fuel
  induction fuel with
  | zero => intro m _; rfl
  | succ j ih =>
      intro m hm
      have h0 : ¬ (m = 0) := by omega
      simp only [numeralForce, h0, if_false, ih (m - 1) (by omega),
        Option.map_none']

theorem numeralForce_nonneg {α : Type} (f : α → α) (z : α) :
    ∀ (k : Nat) (fuel : Nat), k < fuel →
      numeralForce fuel ⟨(k : Int), f⟩ z = some (numeral k f z) := by
  intro k
  induction k with
  | zero =>
      intro fuel hfuel
      obtain ⟨j, rfl⟩ : ∃ j, fuel = j + 1 := ⟨fuel - 1, by omega⟩
      simp [numeralForce, numeral_zero]
  | succ i ih =>
      intro fuel hfuel
      obtain ⟨j, rfl⟩ : ∃ j, fuel = j + 1 := ⟨fuel - 1, by omega⟩
      have hcast : ((i + 1 : Nat) : Int) - 1 = (i : Int) := by push_cast; ring
      have hne : ¬ (((i + 1 : Nat) : Int) = 0) := by omega
      simp only [numeralForce, hne, if_false, hcast, ih j (by omega),
        Option.map_some', numeral_succ]

/-- Claim C9: constructing a numeral never diverges.  For every host
integer n, negative included, the first two stages return closures
immediately (they are pure structure builders); the recursion is forced
only at the final application to both f and z, where it diverges exactly
for negative n (none at every fuel) and terminates for non-negative n
with the value of the total Nat-indexed numeral. -/
theorem numeral_lazy_construction {α : Type} (n : Int) (f : α → α) (z : α) :
    numeralApplyF (numeralMk α n) f = ⟨n, f⟩ ∧
    (n < 0 → ∀ fuel : Nat,
      numeralForce fuel (numeralApplyF (numeralMk α n) f) z = none) ∧
    (0 ≤ n → ∀ fuel : Nat, n < (fuel : Int) →
      numeralForce fuel (numeralApplyF (numeralMk α n) f) z =
        some (numeral n.toNat f z)) := by
  refine ⟨rfl, fun hn fuel => numeralForce_neg f z fuel n hn, ?_⟩
  intro hn fuel hfuel
  have hk : n = ((n.toNat : Nat) : Int) := (Int.toNat_of_nonneg hn).symm
  have h2 : numeralApplyF (numeralMk α n) f =
      NumeralClosureF.mk ((n.toNat : Nat) : Int) f := by
    show NumeralClosureF.mk n f = NumeralClosureF.mk ((n.toNat : Nat) : Int) f
    rw [← hk]
  rw [h2]
  exact numeralForce_nonneg f z n.toNat fuel (by omega)

/-- Claim C9 witness: at n = -1 the forced application diverges (none at
fuel 5), and at n = 2 it terminates with numeral 2. -/
theorem numeral_lazy_witness :
    numeralForce 5 (numeralApplyF (numeralMk Int (-1)) INC) 0 = none ∧
    numeralForce 3 (numeralApplyF (numeralMk Int 2) INC) 0 =
      some (numeral (Int.toNat 2) INC 0) :=
  ⟨(numeral_lazy_construction (-1) INC 0).2.1 (by decide) 5,
   (numeral_lazy_construction 2 INC 0).2.2 (by decide) 3 (by decide)⟩

/-- Claim C3: decoding inverts encoding.  For every non-negative host
integer n, natify(numeral(n)) = n; equivalently numeral(n)(f)(z) applies
f to z exactly n times, and numeral(0)(f)(z) = z for any f. -/
theorem natify_numeral_roundtrip (n : Nat) :
    natify (numeral n) = (n : Int) ∧
    (∀ (α : Type u) (f : α → α) (z : α), numeral n f z = f^[n] z) ∧
    (∀ (α : Type u) (f : α → α) (z : α), numeral 0 f z = z) := by
  refine ⟨?_, fun α f z => numeral_eq_iterate n f z,
    fun α f z => numeral_zero f z⟩
  show numeral n INC 0 = (n : Int)
  rw [numeral_INC]
  ring

/-- Claim C4: natify is a homomorphism from Church arithmetic to host
arithmetic.  For all non-negative integers n and m,
natify(SUCC(numeral(n))) = n + 1, natify(SUM(numeral(n))(numeral(m)))
= n + m, and natify(MULT(numeral(n))(numeral(m))) = n * m. -/
theorem natify_homomorphism (n m : Nat) :
    natify (SUCC (numeral n)) = (n : Int) + 1 ∧
    natify (SUM (numeral n) (numeral m)) = (n : Int) + m ∧
    natify (MULT (numeral n) (numeral m)) = (n : Int) * m := by
  refine ⟨?_, ?_, ?_⟩
  · show INC (numeral n INC 0) = (n : Int) + 1
    rw [numeral_INC]
    show (0 + (n : Int)) + 1 = (n : Int) + 1
    ring
  · show numeral n INC (numeral m INC 0) = (n : Int) + m
    rw [numeral_INC, numeral_INC]
    ring
  · show numeral n (numeral m INC) 0 = (n : Int) * m
    rw [numeral_shift n (numeral m INC) m (fun z => numeral_INC m z)]
    ring

/-- Claim C5: the hand-built compose-based numerals and the numeral(n)-built
ones coincide under the canonical decoder: natify(ONE) = 1, natify(TWO) = 2,
natify(THREE) = 3, natify(FOUR) = 4, natify(EIGHT) = 8. -/
theorem natify_literals :
    natify ONE = 1 ∧ natify TWO = 2 ∧ natify THREE = 3 ∧
    natify FOUR = 4 ∧ natify EIGHT = 8 := by
  refine ⟨rfl, rfl, rfl, ?_, ?_⟩
  · show numeral 4 INC 0 = 4
    rw [numeral_INC]
    norm_num
  · show numeral 8 INC 0 = 8
    rw [numeral_INC]
    norm_num

/-- Claim C6: pair projections round-trip construction without coercion.
For all values a and b, LEFT(PAIR(a)(b)) = a and RIGHT(PAIR(a)(b)) = b,
at arbitrary types. -/
theorem pair_projections {α β : Type u} (a : α) (b : β) :
    LEFT (PAIR a b) = a ∧ RIGHT (PAIR a b) = b :=
  ⟨rfl, rfl⟩

/-- Claim C7: list case analysis is structurally correct.  NILP(NIL) yields
TRUE, and for all values h and t, NILP(CONS(h)(t)) yields FALSE,
HEAD(CONS(h)(t)) = h, and TAIL(CONS(h)(t)) = t. -/
theorem list_case_analysis {ρ α β γ : Type u} (h : α) (t : β) :
    NILP (ρ := ρ) (α := α) (β := β) NIL = TRUE ∧
    NILP (ρ := ρ) (CONS h t) = FALSE ∧
    HEAD (γ := γ) (CONS h t) = h ∧
    TAIL (γ := γ) (CONS h t) = t :=
  ⟨rfl, rfl, rfl, rfl⟩

/-- Claim C8: IF performs lazy conditional selection.  IF(TRUE) returns the
result of the true thunk and IF(FALSE) the result of the false thunk; the
unselected thunk is never invoked, stated both as independence of the
result from the unselected thunk and on raising thunks modelled with
Except (the selected .ok result certifies the raising thunk never ran). -/
theorem if_lazy_selection :
    (∀ (ρ : Type u) (t f : Unit → ρ),
      IF TRUE t f = t () ∧ IF FALSE t f = f () ∧
      (∀ f2 : Unit → ρ, IF TRUE t f = IF TRUE t f2) ∧
      (∀ t2 : Unit → ρ, IF FALSE t f = IF FALSE t2 f)) ∧
    IF TRUE (fun _ => "a") (fun _ => "b") = "a" ∧
    IF FALSE (fun _ => "a") (fun _ => "b") = "b" ∧
    IF TRUE (fun _ => Except.ok "a")
      (fun _ => (Except.error "raised" : Except String String)) =
      Except.ok "a" ∧
    IF FALSE (fun _ => (Except.error "raised" : Except String String))
      (fun _ => Except.ok "b") = Except.ok "b" :=
  ⟨fun _ _ _ => ⟨rfl, rfl, fun _ => rfl, fun _ => rfl⟩, rfl, rfl, rfl, rfl⟩

/-- Claim C10: CONS and the list observers are parametric in the stored
components.  The CONS-case equations hold for arbitrary host values h and
t at arbitrary (not necessarily list or function) types, and the results
never depend on h or t where they are not returned, so nothing invokes or
inspects them. -/
theorem cons_parametric (α β ρ γ : Type u) (h : α) (t : β) :
    HEAD (γ := γ) (CONS h t) = h ∧
    TAIL (γ := γ) (CONS h t) = t ∧
    NILP (ρ := ρ) (CONS h t) = FALSE ∧
    (∀ (h2 : α) (t2 : β),
      NILP (ρ := ρ) (CONS h t) = NILP (ρ := ρ) (CONS h2 t2)) :=
  ⟨rfl, rfl, rfl, fun _ _ => rfl⟩

end LambdaPy
